import Mathlib

/-!
Shallow embedding of the Aurora OSI v4 Multi-Agent Consensus Engine
(src/src/lib/agents/base-agent.ts, class MultiAgentConsensus) in Lean 4.

Numbers are modelled as rationals.  Where the TypeScript source can produce
the IEEE values NaN or Infinity (division by zero), the embedding uses the
explicit type JSNum so that those outcomes are visible.  Promise results of
an agent are modelled as plain data: an ABehavior records how long the call
took and whether it resolved with a result or rejected.
-/

namespace Aurora

/-- Model of a JavaScript number that may be NaN or Infinity.  The engine
only ever reaches Infinity from a division x/0 with x positive, so a single
unsigned `inf` constructor suffices. -/
inductive JSNum where
  | nan : JSNum
  | inf : JSNum
  | fin : ℚ → JSNum
deriving DecidableEq

/-- JavaScript division on rationals: 0/0 is NaN, x/0 with x nonzero is
Infinity (the numerators in this code base are nonnegative counts), and any
other quotient is finite. -/
def jsDiv (a b : ℚ) : JSNum :=
  if b = 0 then (if a = 0 then JSNum.nan else JSNum.inf) else JSNum.fin (a / b)

/-- JavaScript addition: NaN propagates, Infinity absorbs finite values. -/
def jsAdd : JSNum → JSNum → JSNum
  | JSNum.nan, _ => JSNum.nan
  | _, JSNum.nan => JSNum.nan
  | JSNum.inf, _ => JSNum.inf
  | _, JSNum.inf => JSNum.inf
  | JSNum.fin a, JSNum.fin b => JSNum.fin (a + b)

/-- JavaScript multiplication: NaN propagates and 0 times Infinity is NaN.
The engine only multiplies by the positive constant 0.4, so the sign of an
infinite product never matters. -/
def jsMul : JSNum → JSNum → JSNum
  | JSNum.nan, _ => JSNum.nan
  | _, JSNum.nan => JSNum.nan
  | JSNum.inf, JSNum.fin b => if b = 0 then JSNum.nan else JSNum.inf
  | JSNum.fin a, JSNum.inf => if a = 0 then JSNum.nan else JSNum.inf
  | JSNum.inf, JSNum.inf => JSNum.inf
  | JSNum.fin a, JSNum.fin b => JSNum.fin (a * b)

/-- JavaScript strict greater-than: any comparison with NaN is false. -/
def jsGt : JSNum → JSNum → Bool
  | JSNum.nan, _ => false
  | _, JSNum.nan => false
  | JSNum.inf, JSNum.inf => false
  | JSNum.inf, JSNum.fin _ => true
  | JSNum.fin _, JSNum.inf => false
  | JSNum.fin a, JSNum.fin b => decide (b < a)

/-- JavaScript division lifted to two possibly non-finite operands (used by
the history statistics, where a NaN consensus value can be averaged). -/
def jsDivJ : JSNum → JSNum → JSNum
  | JSNum.nan, _ => JSNum.nan
  | _, JSNum.nan => JSNum.nan
  | JSNum.inf, JSNum.inf => JSNum.nan
  | JSNum.inf, JSNum.fin _ => JSNum.inf
  | JSNum.fin _, JSNum.inf => JSNum.fin 0
  | JSNum.fin a, JSNum.fin b => jsDiv a b

/-- Physics sub-report of an agent result (interface AgentResult,
field physicsValidation). -/
structure PhysicsValidation where
  passesPhysics : Bool
  violations : List String
  residualScore : ℚ
deriving DecidableEq

/-- The fields of the opaque `data` payload of an AgentResult that the veto
conditions actually consult: `short_wavelength_anomaly`,
`alteration_detected` (truthiness) and `coherence_score` (a number that may
be absent). -/
structure AgentData where
  shortWavelengthAnomaly : Bool
  alterationDetected : Bool
  coherenceScore : Option ℚ
deriving DecidableEq

/-- Per-agent output (interface AgentResult).  The metadata record is
reduced to the `method` label, the only metadata field named by the spec;
`vetoPower` and the timing fields are never consulted by the engine. -/
structure AgentResult where
  agentName : String
  detection : Bool
  confidence : ℚ
  uncertainty : ℚ
  data : Option AgentData
  physicsValidation : Option PhysicsValidation
  method : String
deriving DecidableEq

/-- Query describing one evaluation request (interface AnomalyCandidate).
Depth, radius and the time window are never consulted by the engine. -/
structure AnomalyCandidate where
  latitude : ℚ
  longitude : ℚ
  targetResource : String
  geologicalContext : String
deriving DecidableEq

/-- Input data snapshot, reduced to the channel-presence facts the quality
gate consults (interface SatelliteData): `optical = some b` means the
optical bundle is present and `b` is the truthiness of its `sentinel2`
channel; likewise `sar` for `sentinel1`, `thermal` for `landsatThermal`
and `elevation` for `srtm`. -/
structure SatelliteData where
  optical : Option Bool
  sar : Option Bool
  thermal : Option Bool
  elevation : Option Bool
deriving DecidableEq

/-- Quality report produced by the data quality gate. -/
structure QualityReport where
  overallQualityScore : ℚ
  issues : List String
  recommendations : List String
  pass : Bool
deriving DecidableEq

/-- Outcome of the veto stage (ConsensusResult.vetoStatus). -/
structure VetoStatus where
  vetoed : Bool
  vetoingAgent : Option String
  vetoReason : Option String
deriving DecidableEq

/-- Declarative veto rule (interface VetoCondition). -/
structure VetoCondition where
  primaryCondition : String
  secondaryCondition : Option String
  vetoReason : String
  vetoingAgent : String
deriving DecidableEq

/-- Stored false-positive fingerprint: the fields of the database entries
that calculatePatternMatch and compareAgentPatterns consult. -/
structure FPPattern where
  resource : String
  geology : String
  agentPattern : List (String × Bool)
  pname : String
deriving DecidableEq

/-- Match record attached on a false-positive hit (patternId and
matchScore of matchDetails; the pattern echo and the generated explanation
string carry no further information). -/
structure FPMatchDetails where
  patternId : String
  matchScore : JSNum
deriving DecidableEq

/-- Result of the false-positive database check. -/
structure FPCheck where
  isKnownFP : Bool
  matchDetails : Option FPMatchDetails
deriving DecidableEq

/-- Engine configuration (interface ConsensusConfig). -/
structure ConsensusConfig where
  consensusThreshold : ℚ
  vetoEnabled : Bool
  confidenceThreshold : ℚ
  maxProcessingTime : ℕ
  parallelExecution : Bool
deriving DecidableEq

/-- A Partial ConsensusConfig as accepted by the constructor: absent fields
fall back to the defaults. -/
structure ConfigPatch where
  consensusThreshold : Option ℚ
  vetoEnabled : Option Bool
  confidenceThreshold : Option ℚ
  maxProcessingTime : Option ℕ
  parallelExecution : Option Bool
deriving DecidableEq

/-- Constructor of MultiAgentConsensus: spreads the supplied Partial config
over the defaults.  It performs no validation and cannot fail. -/
def mkConsensusConfig (p : ConfigPatch) : ConsensusConfig :=
  { consensusThreshold := p.consensusThreshold.getD (17/20)
    vetoEnabled := p.vetoEnabled.getD true
    confidenceThreshold := p.confidenceThreshold.getD (7/10)
    maxProcessingTime := p.maxProcessingTime.getD 300000
    parallelExecution := p.parallelExecution.getD true }

/-- Behaviour of one registered agent on the one (candidate, snapshot) pair
of an evaluation: how many milliseconds its evaluate call takes, and either
the AgentResult it resolves with or `none` when the promise rejects
(a thrown error). -/
structure ABehavior where
  time : ℕ
  outcome : Option AgentResult
deriving DecidableEq

/-- One entry of the agent registry: the map key (the metadata name), the
metadata priority used as the consensus weight, and the behaviour of its
evaluate call. -/
structure RegisteredAgent where
  name : String
  priority : ℚ
  behavior : ABehavior
deriving DecidableEq

/-- Final evaluation result (interface ConsensusResult).  Optional fields
that a given branch of the pipeline does not set are `none`; the detector
result map is an association list in registry order. -/
structure ConsensusResult where
  detection : Bool
  confidence : ℚ
  consensus : JSNum
  agentAgreement : JSNum
  vetoStatus : Option VetoStatus
  agentResults : List (String × AgentResult)
  falsePositiveCheck : Option FPCheck
  qualityReport : QualityReport
deriving DecidableEq

/-- Aggregate statistics over the consensus history. -/
structure ConsensusStats where
  totalEvaluations : ℕ
  detectionRate : ℚ
  vetoRate : ℚ
  averageConfidence : ℚ
  averageConsensus : JSNum
deriving DecidableEq

/- ------------------------------------------------------------------ -/
/- Quality gate                                                        -/
/- ------------------------------------------------------------------ -/

/-- Temporal coverage sub-score: base 0.5, plus 0.2 for a truthy
optical.sentinel2, 0.2 for sar.sentinel1, 0.1 for thermal.landsatThermal,
capped at 1. -/
def assessTemporalCoverage (d : SatelliteData) : ℚ :=
  min 1 ((1/2 : ℚ)
    + (if d.optical.getD false then 1/5 else 0)
    + (if d.sar.getD false then 1/5 else 0)
    + (if d.thermal.getD false then 1/10 else 0))

/-- Cloud sub-score: 0.85 when an optical bundle is present, else 1. -/
def assessCloudCover (d : SatelliteData) : ℚ :=
  if d.optical.isSome then 17/20 else 1

/-- Resolution compatibility sub-score: 0.9 when both a 10 m source
(optical.sentinel2 or sar.sentinel1) and a 30 m source
(thermal.landsatThermal or elevation.srtm) are present, else 0.6. -/
def assessResolutionCompatibility (d : SatelliteData) : ℚ :=
  if (d.optical.getD false || d.sar.getD false)
      && (d.thermal.getD false || d.elevation.getD false)
  then 9/10 else 3/5

/-- Radiometric consistency sub-score: the source returns the constant
0.9. -/
def assessRadiometricConsistency (_ : SatelliteData) : ℚ := 9/10

/-- Phase 1 (performDataQualityCheck): weighted sum
0.2 temporal + 0.3 cloud + 0.25 resolution + 0.25 radiometric, issue and
recommendation lists from the per-score bars, pass when the overall score
is at least 0.75. -/
def performDataQualityCheck (d : SatelliteData) : QualityReport :=
  let temporalScore := assessTemporalCoverage d
  let cloudScore := assessCloudCover d
  let resolutionScore := assessResolutionCompatibility d
  let radiometricScore := assessRadiometricConsistency d
  let overallScore := temporalScore * (1/5) + cloudScore * (3/10)
    + resolutionScore * (1/4) + radiometricScore * (1/4)
  { overallQualityScore := overallScore
    issues :=
      (if temporalScore < 7/10 then ["Insufficient temporal coverage"] else [])
      ++ (if cloudScore < 4/5 then ["High cloud contamination in optical data"] else [])
      ++ (if resolutionScore < 3/5 then ["Incompatible resolutions across sensors"] else [])
      ++ (if radiometricScore < 9/10 then ["Radiometric inconsistencies detected"] else [])
    recommendations :=
      (if temporalScore < 7/10 then ["Extend date range or use seasonal composite"] else [])
      ++ (if cloudScore < 4/5 then ["Apply cloud masking or rely on SAR data"] else [])
      ++ (if resolutionScore < 3/5 then ["Resample to common resolution grid"] else [])
      ++ (if radiometricScore < 9/10 then ["Apply cross-sensor calibration"] else [])
    pass := decide ((3/4 : ℚ) ≤ overallScore) }

/- ------------------------------------------------------------------ -/
/- Orchestrator                                                        -/
/- ------------------------------------------------------------------ -/

/-- The synthetic failed result substituted for a crashed or timed-out
agent: detection false, confidence 0, uncertainty 1, method "failed". -/
def failedAgentResult (name : String) : AgentResult :=
  { agentName := name, detection := false, confidence := 0, uncertainty := 1
    data := none, physicsValidation := none, method := "failed" }

/-- runAgentWithTimeout: the evaluate promise is raced against a timer of
maxProcessingTime milliseconds; the call yields the agent result only when
the agent resolves within the bound, and rejects (modelled as `none`) on a
thrown error or on timer expiry. -/
def runAgentWithTimeout (maxT : ℕ) (b : ABehavior) : Option AgentResult :=
  if maxT < b.time then none else b.outcome

/-- Outcome of one registry entry: the rejection of a single agent is
caught at the task boundary and replaced by the synthetic failed result
keyed under the registry name. -/
def runOne (maxT : ℕ) (a : RegisteredAgent) : String × AgentResult :=
  (a.name,
    match runAgentWithTimeout maxT a.behavior with
    | some r => r
    | none => failedAgentResult a.name)

/-- Phase 2 (runAgentEvaluations): the parallel branch (Promise.all over
the registry entries) and the sequential branch (a for loop over the same
entries) build the same name-keyed mapping in registry order. -/
def runAgentEvaluations (parallel : Bool) (maxT : ℕ)
    (agents : List RegisteredAgent) : List (String × AgentResult) :=
  if parallel then agents.map (runOne maxT) else agents.map (runOne maxT)

/- ------------------------------------------------------------------ -/
/- Consensus metrics                                                   -/
/- ------------------------------------------------------------------ -/

/-- Per-result weight used by calculateConsensusMetrics: the priority of
the registered agent of that name, or 1 when the name is not in the
registry. -/
def metricWeight (agents : List RegisteredAgent) (name : String) : ℚ :=
  match agents.find? (fun a => a.name == name) with
  | some a => a.priority
  | none => 1

/-- calculatePairwiseAgreements: over all unordered pairs i < j, count the
pairs whose boolean detection flags coincide. -/
def calculatePairwiseAgreements : List AgentResult → ℕ
  | [] => 0
  | r :: rest =>
      (rest.filter (fun s => r.detection == s.detection)).length
        + calculatePairwiseAgreements rest

/-- Consensus metrics record returned by Phase 3. -/
structure ConsensusMetrics where
  rawConsensus : JSNum
  weightedConsensus : ℚ
  agreementRat : JSNum
  detectionCount : ℕ
  totalCount : ℕ
  agentWeights : List (String × ℚ)
deriving DecidableEq

/-- Phase 3 (calculateConsensusMetrics).  The single loop of the source
accumulates weightedSum, totalWeight and the agentWeights record; they are
written here as three comprehensions over the same entries.  rawConsensus
is the unguarded quotient detectionCount/totalCount and agreementRat the
unguarded quotient agreements/C(n,2); both are NaN when their denominator
is zero.  The field agreementRat embeds the agreementRatio of the
source. -/
def calculateConsensusMetrics (agents : List RegisteredAgent)
    (agentResults : List (String × AgentResult)) : ConsensusMetrics :=
  let results := agentResults.map Prod.snd
  let detectionCount := (results.filter (fun r => r.detection)).length
  let totalCount := results.length
  let weightedSum := (agentResults.map (fun e =>
      if e.2.detection then e.2.confidence * metricWeight agents e.1 else 0)).sum
  let totalWeight := (agentResults.map (fun e => metricWeight agents e.1)).sum
  let agreements := calculatePairwiseAgreements results
  { rawConsensus := jsDiv (detectionCount : ℚ) (totalCount : ℚ)
    weightedConsensus := if 0 < totalWeight then weightedSum / totalWeight else 0
    agreementRat := jsDiv (agreements : ℚ) ((totalCount * (totalCount - 1) / 2 : ℕ) : ℚ)
    detectionCount := detectionCount
    totalCount := totalCount
    agentWeights := agentResults.map (fun e => (e.1, metricWeight agents e.1)) }

/- ------------------------------------------------------------------ -/
/- Weighted confidence fusion                                          -/
/- ------------------------------------------------------------------ -/

/-- Effective weight of one agent in calculateWeightedConfidence:
the JavaScript expression agentWeights?.[agentName] || 1 yields 1 when the
weight map is absent, when the name is missing, or when the stored weight
is the falsy number 0. -/
def effWeight (ws : Option (List (String × ℚ))) (name : String) : ℚ :=
  match ws with
  | none => 1
  | some l =>
      match l.lookup name with
      | none => 1
      | some w => if w = 0 then 1 else w

/-- calculateWeightedConfidence: sum of detection-gated confidence times
(1 - uncertainty) times effective weight, divided by the sum of effective
weights, and 0 unless that total is strictly positive. -/
def calculateWeightedConfidence (agentResults : List (String × AgentResult))
    (ws : Option (List (String × ℚ))) : ℚ :=
  let weightedSum := (agentResults.map (fun e =>
      (if e.2.detection then e.2.confidence else 0) * (1 - e.2.uncertainty)
        * effWeight ws e.1)).sum
  let totalWeight := (agentResults.map (fun e => effWeight ws e.1)).sum
  if 0 < totalWeight then weightedSum / totalWeight else 0

/- ------------------------------------------------------------------ -/
/- Veto engine                                                         -/
/- ------------------------------------------------------------------ -/

/-- Helper for the substring tests of the veto conditions: does the needle
occur as a contiguous run at the head of the haystack. -/
def startsWithCh : List Char → List Char → Bool
  | [], _ => true
  | _ :: _, [] => false
  | n :: ns, h :: hs => n == h && startsWithCh ns hs

/-- Does the needle occur as a contiguous run anywhere in the haystack
(String.prototype.includes). -/
def hasSubstr : List Char → List Char → Bool
  | [], needle => needle.isEmpty
  | h :: hs, needle => startsWithCh needle (h :: hs) || hasSubstr hs needle

/-- result.agentName.toLowerCase().includes(needle) with a lowercase
needle. -/
def agentNameHas (r : AgentResult) (needle : String) : Bool :=
  hasSubstr (r.agentName.toList.map Char.toLower) needle.toList

/-- Truthiness of result.data?.short_wavelength_anomaly. -/
def dataShortWavelength (r : AgentResult) : Bool :=
  match r.data with
  | some d => d.shortWavelengthAnomaly
  | none => false

/-- Truthiness of result.data?.alteration_detected. -/
def dataAlteration (r : AgentResult) : Bool :=
  match r.data with
  | some d => d.alterationDetected
  | none => false

/-- result.data?.coherence_score < 0.7: false when data or the score is
absent (a comparison against undefined is false in JavaScript). -/
def dataCoherenceLow (r : AgentResult) : Bool :=
  match r.data with
  | some d =>
      match d.coherenceScore with
      | some q => decide (q < 7/10)
      | none => false
  | none => false

/-- The named condition predicates of checkVetoCondition; an unknown
condition name holds of nothing (the optional-call on a missing table
entry yields undefined, which fails the truthiness test). -/
def conditionHolds : String → List AgentResult → Bool
  | "seepage_detected", rs =>
      rs.any (fun r => agentNameHas r "seepage" && r.detection)
  | "no_trap_detected", rs =>
      rs.all (fun r => !agentNameHas r "trap" || !r.detection)
  | "short_wavelength_high", rs =>
      rs.any (fun r => agentNameHas r "grav" && dataShortWavelength r)
  | "no_spectral_alteration", rs =>
      rs.all (fun r => !agentNameHas r "spectral" || !dataAlteration r)
  | "temporal_coherence_below_threshold", rs =>
      rs.any (fun r => agentNameHas r "temporal" && dataCoherenceLow r)
  | "physics_violation", rs =>
      rs.any (fun r =>
        match r.physicsValidation with
        | some pv => !pv.passesPhysics
        | none => false)
  | "physics_residual_high", rs =>
      rs.any (fun r =>
        match r.physicsValidation with
        | some pv => decide (1 < pv.residualScore)
        | none => false)
  | _, _ => false

/-- The ordered, hard-coded rule list of applyVetoLogic. -/
def vetoConditions : List VetoCondition :=
  [ { primaryCondition := "seepage_detected"
      secondaryCondition := some "no_trap_detected"
      vetoReason := "Surface seepage without subsurface trap violates causal consistency"
      vetoingAgent := "StructuralContextAgent" }
  , { primaryCondition := "short_wavelength_high"
      secondaryCondition := some "no_spectral_alteration"
      vetoReason := "High-frequency gravity anomaly without mineral alteration"
      vetoingAgent := "SpectralEvolutionAgent" }
  , { primaryCondition := "physics_violation"
      secondaryCondition := none
      vetoReason := "Anomaly violates physics constraints for this geological province"
      vetoingAgent := "PhysicsValidationAgent" }
  , { primaryCondition := "temporal_coherence_below_threshold"
      secondaryCondition := none
      vetoReason := "Signal lacks multi-year persistence required for valid detection"
      vetoingAgent := "TemporalCoherenceAgent" }
  , { primaryCondition := "physics_residual_high"
      secondaryCondition := none
      vetoReason := "Model violates physical laws at this location"
      vetoingAgent := "QuantumInversionAgent" } ]

/-- checkVetoCondition: the primary predicate must hold of the result set,
and the secondary predicate too when one is declared. -/
def checkVetoCondition (agentResults : List (String × AgentResult))
    (c : VetoCondition) : Bool :=
  let rs := agentResults.map Prod.snd
  conditionHolds c.primaryCondition rs
    && (match c.secondaryCondition with
        | none => true
        | some s => conditionHolds s rs)

/-- Phase 4 (applyVetoLogic): a no-op when vetoes are disabled, otherwise
the first firing rule of the ordered list wins. -/
def applyVetoLogic (vetoEnabled : Bool)
    (agentResults : List (String × AgentResult)) : VetoStatus :=
  if !vetoEnabled then
    { vetoed := false, vetoingAgent := none, vetoReason := none }
  else
    match vetoConditions.find? (checkVetoCondition agentResults) with
    | some c =>
        { vetoed := true, vetoingAgent := some c.vetoingAgent
          vetoReason := some c.vetoReason }
    | none => { vetoed := false, vetoingAgent := none, vetoReason := none }

/- ------------------------------------------------------------------ -/
/- False positive matcher                                              -/
/- ------------------------------------------------------------------ -/

/-- Feature tuple of extractAnomalyFeatures (the location copy is not
consulted by the matcher). -/
structure Features where
  resource : String
  geology : String
  agentDetections : List (String × Bool)
  averageConfidence : ℚ
deriving DecidableEq

/-- extractAnomalyFeatures. -/
def extractAnomalyFeatures (cand : AnomalyCandidate)
    (agentResults : List (String × AgentResult)) : Features :=
  { resource := cand.targetResource
    geology := cand.geologicalContext
    agentDetections := agentResults.map (fun e => (e.1, e.2.detection))
    averageConfidence := calculateWeightedConfidence agentResults none }

/-- Insertion into a JavaScript Map: an existing key keeps its position
and takes the new value, a new key is appended. -/
def jsMapInsert (m : List (String × Bool)) (k : String) (v : Bool) :
    List (String × Bool) :=
  if m.any (fun e => e.1 == k) then
    m.map (fun e => if e.1 == k then (k, v) else e)
  else m ++ [(k, v)]

/-- new Map(list): left-to-right insertion, so a duplicated key keeps its
first position and its last value. -/
def jsMapOfList (l : List (String × Bool)) : List (String × Bool) :=
  l.foldl (fun m e => jsMapInsert m e.1 e.2) []

/-- compareAgentPatterns: over the entries of the detection map, count
those whose flag strictly equals the expected flag stored in the pattern
map (a missing pattern entry never matches), divided by the length of the
original detections list. -/
def compareAgentPatterns (detections : List (String × Bool))
    (patList : List (String × Bool)) : JSNum :=
  let dm := jsMapOfList detections
  let pm := jsMapOfList patList
  let matchCount := (dm.filter (fun e => pm.lookup e.1 == some e.2)).length
  jsDiv (matchCount : ℚ) (detections.length : ℚ)

/-- calculatePatternMatch: 0.3 for a resource match, 0.3 for a geology
match, plus 0.4 times the agent-pattern fraction. -/
def calculatePatternMatch (features : Features) (pat : FPPattern) : JSNum :=
  let base : ℚ :=
    (if features.resource == pat.resource then 3/10 else 0)
      + (if features.geology == pat.geology then 3/10 else 0)
  jsAdd (JSNum.fin base)
    (jsMul (compareAgentPatterns features.agentDetections pat.agentPattern)
      (JSNum.fin (2/5)))

/-- Phase 5 (checkFalsePositiveDatabase): the first stored pattern whose
match score exceeds 0.7 makes the evaluation a known false positive. -/
def checkFalsePositiveDatabase (fpdb : List (String × FPPattern))
    (cand : AnomalyCandidate)
    (agentResults : List (String × AgentResult)) : FPCheck :=
  let features := extractAnomalyFeatures cand agentResults
  match fpdb.find? (fun e =>
      jsGt (calculatePatternMatch features e.2) (JSNum.fin (7/10))) with
  | some e =>
      { isKnownFP := true
        matchDetails := some
          { patternId := e.1
            matchScore := calculatePatternMatch features e.2 } }
  | none => { isKnownFP := false, matchDetails := none }

/- ------------------------------------------------------------------ -/
/- Evaluation pipeline and history                                     -/
/- ------------------------------------------------------------------ -/

/-- evaluateWithConsensus together with the flag stating whether this run
executed the history append of the source (which sits only on the final
fusion path).  The engine state consumed by a run is the configuration,
the false positive database and the agent registry. -/
def evaluateSteps (cfg : ConsensusConfig) (fpdb : List (String × FPPattern))
    (agents : List RegisteredAgent) (cand : AnomalyCandidate)
    (data : SatelliteData) : ConsensusResult × Bool :=
  let qualityReport := performDataQualityCheck data
  if !qualityReport.pass then
    ({ detection := false, confidence := 0, consensus := JSNum.fin 0
       agentAgreement := JSNum.fin 0, vetoStatus := none, agentResults := []
       falsePositiveCheck := none, qualityReport := qualityReport }, false)
  else
    let agentResults :=
      runAgentEvaluations cfg.parallelExecution cfg.maxProcessingTime agents
    let m := calculateConsensusMetrics agents agentResults
    let vetoResult := applyVetoLogic cfg.vetoEnabled agentResults
    if vetoResult.vetoed then
      ({ detection := false
         confidence := calculateWeightedConfidence agentResults none
         consensus := m.rawConsensus, agentAgreement := m.agreementRat
         vetoStatus := some vetoResult, agentResults := agentResults
         falsePositiveCheck := none, qualityReport := qualityReport }, false)
    else
      let fpCheck := checkFalsePositiveDatabase fpdb cand agentResults
      if fpCheck.isKnownFP then
        ({ detection := false
           confidence := calculateWeightedConfidence agentResults none
           consensus := m.rawConsensus, agentAgreement := m.agreementRat
           vetoStatus := none, agentResults := agentResults
           falsePositiveCheck := some fpCheck
           qualityReport := qualityReport }, false)
      else
        let finalConfidence :=
          calculateWeightedConfidence agentResults (some m.agentWeights)
        ({ detection := decide (cfg.confidenceThreshold ≤ finalConfidence)
           confidence := finalConfidence
           consensus := m.rawConsensus, agentAgreement := m.agreementRat
           vetoStatus := none, agentResults := agentResults
           falsePositiveCheck := none, qualityReport := qualityReport }, true)

/-- The evaluation result of one run of evaluateWithConsensus. -/
def evaluateWithConsensus (cfg : ConsensusConfig)
    (fpdb : List (String × FPPattern)) (agents : List RegisteredAgent)
    (cand : AnomalyCandidate) (data : SatelliteData) : ConsensusResult :=
  (evaluateSteps cfg fpdb agents cand data).1

/-- One run of evaluateWithConsensus together with its effect on the
consensusHistory list: the source pushes the result only on the fusion
path. -/
def evalAndLog (cfg : ConsensusConfig) (fpdb : List (String × FPPattern))
    (agents : List RegisteredAgent) (cand : AnomalyCandidate)
    (data : SatelliteData) (hist : List ConsensusResult) :
    ConsensusResult × List ConsensusResult :=
  let s := evaluateSteps cfg fpdb agents cand data
  (s.1, if s.2 then hist ++ [s.1] else hist)

/-- getConsensusStatistics over a history list (null on an empty history).
Averaging the consensus field goes through JSNum since a stored consensus
can be NaN. -/
def getConsensusStatistics (hist : List ConsensusResult) :
    Option ConsensusStats :=
  if hist.length = 0 then none
  else some
    { totalEvaluations := hist.length
      detectionRate :=
        ((hist.filter (fun r => r.detection)).length : ℚ) / (hist.length : ℚ)
      vetoRate :=
        ((hist.filter (fun r =>
          (r.vetoStatus.map (fun v => v.vetoed)).getD false)).length : ℚ)
          / (hist.length : ℚ)
      averageConfidence := (hist.map (fun r => r.confidence)).sum / (hist.length : ℚ)
      averageConsensus :=
        jsDivJ (hist.foldl (fun s r => jsAdd s r.consensus) (JSNum.fin 0))
          (JSNum.fin (hist.length : ℚ)) }

/- ------------------------------------------------------------------ -/
/- Spec-side definitions (for refinement comparisons)                  -/
/- ------------------------------------------------------------------ -/

/-- Stated from the spec formula for final confidence fusion:
the sum over detectors with detected = true of
confidence times (1 - uncertainty) times weight, divided by the sum of
the weights of all detectors, and 0 when that total weight is 0. -/
def specWeightedConfidence (l : List (String × AgentResult))
    (g : String → ℚ) : ℚ :=
  let totalWeight := (l.map (fun e => g e.1)).sum
  if totalWeight = 0 then 0
  else (l.map (fun e =>
    if e.2.detection then e.2.confidence * (1 - e.2.uncertainty) * g e.1
    else 0)).sum / totalWeight

/-- Stated from the spec formula for the pattern similarity score:
0.3 for a target category match, plus 0.3 for a context match, plus 0.4
times the fraction of detectors whose boolean output equals the expected
output the pattern stores for them. -/
def specPatternScore (cand : AnomalyCandidate)
    (entries : List (String × AgentResult)) (pat : FPPattern) : ℚ :=
  (if cand.targetResource = pat.resource then 3/10 else 0)
  + (if cand.geologicalContext = pat.geology then 3/10 else 0)
  + (2/5) * ((entries.countP
      (fun e => pat.agentPattern.lookup e.1 == some e.2.detection) : ℚ)
    / (entries.length : ℚ))

/-- A result produced by the final fusion path: the quality gate passed
and neither the veto stage nor the false positive check fired. -/
def isFusionResult (r : ConsensusResult) : Bool :=
  r.qualityReport.pass && r.vetoStatus.isNone && r.falsePositiveCheck.isNone

/- ------------------------------------------------------------------ -/
/- Helper lemmas                                                       -/
/- ------------------------------------------------------------------ -/

lemma runAgentEvaluations_eq (p : Bool) (maxT : ℕ)
    (agents : List RegisteredAgent) :
    runAgentEvaluations p maxT agents = agents.map (runOne maxT) := by
  simp [runAgentEvaluations]

lemma runAgentEvaluations_names (p : Bool) (maxT : ℕ)
    (agents : List RegisteredAgent) :
    (runAgentEvaluations p maxT agents).map Prod.fst
      = agents.map RegisteredAgent.name := by
  simp [runAgentEvaluations_eq, runOne, List.map_map, Function.comp]

lemma runAgentEvaluations_length (p : Bool) (maxT : ℕ)
    (agents : List RegisteredAgent) :
    (runAgentEvaluations p maxT agents).length = agents.length := by
  simp [runAgentEvaluations_eq]

/- ------------------------------------------------------------------ -/
/- Concrete fixtures                                                   -/
/- ------------------------------------------------------------------ -/

/-- Snapshot with no channels: quality score 31/40, which passes the
0.75 gate. -/
def snapEmpty : SatelliteData := ⟨none, none, none, none⟩

/-- Snapshot with an optical bundle but no truthy sentinel2 channel:
quality score 73/100, which fails the 0.75 gate. -/
def snapPoor : SatelliteData := ⟨some false, none, none, none⟩

/-- A fixed candidate for the concrete runs. -/
def cand0 : AnomalyCandidate := ⟨0, 0, "gold", "craton"⟩

/-- The engine configuration built from an empty Partial config, i.e. all
defaults. -/
def cfg0 : ConsensusConfig := mkConsensusConfig ⟨none, none, none, none, none⟩

/-- A registry with one agent whose result fails its physics validation,
so the physics_violation veto rule fires. -/
def vetoAgents : List RegisteredAgent :=
  [⟨"phys", 1, ⟨0, some ⟨"phys", true, 1, 0, none, some ⟨false, [], 0⟩, "m"⟩⟩⟩]

/-- A registry with one well-behaved agent of priority 2 reporting a
detection with confidence 0.9 and uncertainty 0.1. -/
def posAgents : List RegisteredAgent :=
  [⟨"a", 2, ⟨0, some ⟨"a", true, 9/10, 1/10, none, none, "m"⟩⟩⟩]

/-- A registry with one detecting agent whose priority is the falsy
number 0. -/
def zeroWeightAgents : List RegisteredAgent :=
  [⟨"a", 0, ⟨0, some ⟨"a", true, 1, 0, none, none, "m"⟩⟩⟩]

/-- A registry whose first agent takes 10 ms (it will time out against a
5 ms bound) and whose second agent throws. -/
def demoAgents : List RegisteredAgent :=
  [⟨"slow", 1, ⟨10, some ⟨"slow", true, 1, 0, none, none, "m"⟩⟩⟩,
   ⟨"crash", 1, ⟨0, none⟩⟩]

/-- Three detector results with boolean outputs true, true, false. -/
def threeResults : List (String × AgentResult) :=
  [("a", ⟨"a", true, 1, 0, none, none, "m"⟩),
   ("b", ⟨"b", true, 1, 0, none, none, "m"⟩),
   ("c", ⟨"c", false, 0, 1, none, none, "m"⟩)]

/-- A stored false positive pattern matching cand0 and a single detecting
agent named a. -/
def pat0 : FPPattern := ⟨"gold", "craton", [("a", true)], "pat"⟩

/-- A registry with one detecting agent named a, used for the false
positive suppression run. -/
def fpAgents : List RegisteredAgent :=
  [⟨"a", 1, ⟨0, some ⟨"a", true, 1, 0, none, none, "m"⟩⟩⟩]

/- ------------------------------------------------------------------ -/
/- Claim theorems                                                      -/
/- ------------------------------------------------------------------ -/

/-- Claim C1: in every evaluation in which a veto rule fired or a false
positive pattern matched (visible as a vetoed vetoStatus or an isKnownFP
falsePositiveCheck on the returned result), the result has
detection = false, for every configuration, threshold, registry, database,
candidate and snapshot. -/
theorem C1_veto_or_fp_forces_negative (cfg : ConsensusConfig)
    (fpdb : List (String × FPPattern)) (agents : List RegisteredAgent)
    (cand : AnomalyCandidate) (data : SatelliteData)
    (h : (∃ v, (evaluateWithConsensus cfg fpdb agents cand data).vetoStatus
            = some v ∧ v.vetoed = true)
      ∨ (∃ f, (evaluateWithConsensus cfg fpdb agents cand data).falsePositiveCheck
            = some f ∧ f.isKnownFP = true)) :
    (evaluateWithConsensus cfg fpdb agents cand data).detection = false := by
  by_cases hq : (performDataQualityCheck data).pass = true
  · by_cases hv : (applyVetoLogic cfg.vetoEnabled
        (runAgentEvaluations cfg.parallelExecution cfg.maxProcessingTime agents)).vetoed = true
    · simp [evaluateWithConsensus, evaluateSteps, hq, hv]
    · rw [Bool.not_eq_true] at hv
      by_cases hf : (checkFalsePositiveDatabase fpdb cand
          (runAgentEvaluations cfg.parallelExecution cfg.maxProcessingTime agents)).isKnownFP = true
      · simp [evaluateWithConsensus, evaluateSteps, hq, hv, hf]
      · rw [Bool.not_eq_true] at hf
        simp [evaluateWithConsensus, evaluateSteps, hq, hv, hf] at h
  · rw [Bool.not_eq_true] at hq
    simp [evaluateWithConsensus, evaluateSteps, hq]

/-- Claim C1 witness: a concrete run (one agent failing its physics
validation) in which the veto fires and the result is negative. -/
theorem C1_witness :
    (evaluateWithConsensus cfg0 [] vetoAgents cand0 snapEmpty).detection = false := by
  apply C1_veto_or_fp_forces_negative
  left
  refine ⟨⟨true, some "PhysicsValidationAgent",
    some "Anomaly violates physics constraints for this geological province"⟩, ?_, rfl⟩
  norm_num [evaluateWithConsensus, evaluateSteps, performDataQualityCheck,
    assessTemporalCoverage, assessCloudCover, assessResolutionCompatibility,
    assessRadiometricConsistency, snapEmpty, min_def, cfg0, mkConsensusConfig,
    runAgentEvaluations, runOne, runAgentWithTimeout, vetoAgents,
    applyVetoLogic, vetoConditions, checkVetoCondition, conditionHolds,
    agentNameHas, hasSubstr, startsWithCh, dataShortWavelength, dataCoherenceLow]

/-- Claim C2: on the empty detector-result set the consensus calculation
does divide zero by zero; the raw consensus (and the agreement quotient)
come out as the JavaScript value NaN instead of the 0 the spec
requires. -/
theorem C2_empty_set_rawAgreement_is_nan :
    (calculateConsensusMetrics [] []).rawConsensus = JSNum.nan
    ∧ (calculateConsensusMetrics [] []).agreementRat = JSNum.nan
    ∧ (calculateConsensusMetrics [] []).totalCount = 0
    ∧ JSNum.nan ≠ JSNum.fin 0
    ∧ (evaluateWithConsensus cfg0 [] [] cand0 snapEmpty).consensus = JSNum.nan := by
  refine ⟨by decide, by decide, by decide, by decide, ?_⟩
  norm_num [evaluateWithConsensus, evaluateSteps, performDataQualityCheck,
    assessTemporalCoverage, assessCloudCover, assessResolutionCompatibility,
    assessRadiometricConsistency, snapEmpty, min_def, cfg0, mkConsensusConfig,
    runAgentEvaluations, calculateConsensusMetrics, applyVetoLogic,
    vetoConditions, checkVetoCondition, conditionHolds,
    checkFalsePositiveDatabase, extractAnomalyFeatures, jsDiv]

/-- Claim C3: whenever the overall quality score of the snapshot is below
0.75 the quality report does not pass, and the evaluation returns
detection = false with confidence 0 and an empty detector-result map,
identically for every agent registry (so no registered detector is ever
consulted). -/
theorem C3_quality_gate_short_circuit (cfg : ConsensusConfig)
    (fpdb : List (String × FPPattern)) (agents : List RegisteredAgent)
    (cand : AnomalyCandidate) (data : SatelliteData)
    (h : (performDataQualityCheck data).overallQualityScore < 3/4) :
    (performDataQualityCheck data).pass = false
    ∧ (evaluateWithConsensus cfg fpdb agents cand data).detection = false
    ∧ (evaluateWithConsensus cfg fpdb agents cand data).confidence = 0
    ∧ (evaluateWithConsensus cfg fpdb agents cand data).agentResults = []
    ∧ ∀ agents2 : List RegisteredAgent,
        evaluateWithConsensus cfg fpdb agents2 cand data
          = evaluateWithConsensus cfg fpdb agents cand data := by
  have hp : (performDataQualityCheck data).pass = false := by
    rw [show (performDataQualityCheck data).pass
        = decide ((3:ℚ)/4 ≤ (performDataQualityCheck data).overallQualityScore) from rfl]
    exact decide_eq_false (not_le.mpr h)
  refine ⟨hp, ?_, ?_, ?_, ?_⟩ <;>
    simp [evaluateWithConsensus, evaluateSteps, hp]

/-- Claim C3 witness: the snapshot snapPoor scores 73/100 < 3/4, its
report fails, and the evaluation is the empty negative result. -/
theorem C3_witness :
    (performDataQualityCheck snapPoor).pass = false
    ∧ (evaluateWithConsensus cfg0 [] posAgents cand0 snapPoor).detection = false
    ∧ (evaluateWithConsensus cfg0 [] posAgents cand0 snapPoor).agentResults = [] := by
  have h := C3_quality_gate_short_circuit cfg0 [] posAgents cand0 snapPoor
    (by norm_num [performDataQualityCheck, assessTemporalCoverage, assessCloudCover,
      assessResolutionCompatibility, assessRadiometricConsistency, snapPoor, min_def])
  exact ⟨h.1, h.2.1, h.2.2.2.1⟩

/-- Claim C4: the orchestrator returns exactly one entry per registered
detector, keyed and ordered by the registry; an entry whose evaluate call
rejects (a thrown error, or a duration exceeding maxProcessingTime) is
the synthetic failed result with detection false, confidence 0,
uncertainty 1 and method failed, while an entry that resolves in time
keeps its own result — so one failure never aborts the evaluation or the
other detectors. -/
theorem C4_failure_isolation (parallel : Bool) (maxT : ℕ)
    (agents : List RegisteredAgent) :
    ((runAgentEvaluations parallel maxT agents).map Prod.fst
        = agents.map RegisteredAgent.name)
    ∧ (∀ i : Fin agents.length,
        runAgentWithTimeout maxT (agents.get i).behavior = none →
        (runAgentEvaluations parallel maxT agents).get
            (Fin.cast (runAgentEvaluations_length parallel maxT agents).symm i)
          = ((agents.get i).name,
             { agentName := (agents.get i).name, detection := false
               confidence := 0, uncertainty := 1, data := none
               physicsValidation := none, method := "failed" }))
    ∧ (∀ i : Fin agents.length, ∀ r : AgentResult,
        runAgentWithTimeout maxT (agents.get i).behavior = some r →
        (runAgentEvaluations parallel maxT agents).get
            (Fin.cast (runAgentEvaluations_length parallel maxT agents).symm i)
          = ((agents.get i).name, r)) := by
  refine ⟨runAgentEvaluations_names parallel maxT agents, ?_, ?_⟩
  · intro i hfail
    rw [List.get_eq_getElem] at hfail
    simp [runAgentEvaluations_eq, List.get_eq_getElem, List.getElem_map,
      runOne, hfail, failedAgentResult]
  · intro i r hok
    rw [List.get_eq_getElem] at hok
    simp [runAgentEvaluations_eq, List.get_eq_getElem, List.getElem_map,
      runOne, hok]

/-- Claim C4 witness: with a 5 ms bound, the 10 ms agent times out and the
throwing agent rejects; both are substituted by the synthetic failed
result and both entries are present. -/
theorem C4_witness :
    (runAgentEvaluations true 5 demoAgents).get
        (Fin.cast (runAgentEvaluations_length true 5 demoAgents).symm ⟨0, by decide⟩)
      = ("slow", { agentName := "slow", detection := false, confidence := 0
                   uncertainty := 1, data := none, physicsValidation := none
                   method := "failed" })
    ∧ (runAgentEvaluations true 5 demoAgents).get
        (Fin.cast (runAgentEvaluations_length true 5 demoAgents).symm ⟨1, by decide⟩)
      = ("crash", { agentName := "crash", detection := false, confidence := 0
                    uncertainty := 1, data := none, physicsValidation := none
                    method := "failed" }) :=
  ⟨(C4_failure_isolation true 5 demoAgents).2.1 ⟨0, by decide⟩ (by decide),
   (C4_failure_isolation true 5 demoAgents).2.1 ⟨1, by decide⟩ (by decide)⟩

/-- Claim C6: the consensusThreshold configuration value is never
consulted by the evaluation pipeline: two configurations that agree on
every other field produce identical evaluation results and identical
history effects, for every candidate, snapshot, registry and database. -/
theorem C6_consensusThreshold_never_consulted (c1 c2 : ConsensusConfig)
    (hv : c1.vetoEnabled = c2.vetoEnabled)
    (hc : c1.confidenceThreshold = c2.confidenceThreshold)
    (hm : c1.maxProcessingTime = c2.maxProcessingTime)
    (hp : c1.parallelExecution = c2.parallelExecution)
    (fpdb : List (String × FPPattern)) (agents : List RegisteredAgent)
    (cand : AnomalyCandidate) (data : SatelliteData) :
    evaluateWithConsensus c1 fpdb agents cand data
      = evaluateWithConsensus c2 fpdb agents cand data
    ∧ ∀ hist : List ConsensusResult,
        evalAndLog c1 fpdb agents cand data hist
          = evalAndLog c2 fpdb agents cand data hist := by
  obtain ⟨t1, v1, ct1, m1, p1⟩ := c1
  obtain ⟨t2, v2, ct2, m2, p2⟩ := c2
  simp only at hv hc hm hp
  subst hv; subst hc; subst hm; subst hp
  exact ⟨rfl, fun hist => rfl⟩

/-- Claim C6 witness: the default configuration and the same
configuration with consensusThreshold lowered to 1/5 give the same result
on a concrete run. -/
theorem C6_witness :
    evaluateWithConsensus cfg0 [] posAgents cand0 snapEmpty
      = evaluateWithConsensus (mkConsensusConfig ⟨some (1/5), none, none, none, none⟩)
          [] posAgents cand0 snapEmpty :=
  (C6_consensusThreshold_never_consulted cfg0
    (mkConsensusConfig ⟨some (1/5), none, none, none, none⟩)
    rfl rfl rfl rfl [] posAgents cand0 snapEmpty).1

/-- Claim C7: for the boolean outputs true, true, false, the pairwise
count is 1 agreement out of C(3,2) = 3 pairs and the quotient is 1/3 as
the claim states; but for a single detector (n = 1, and likewise n = 0)
the code divides 0 by 0, so the quotient is the JavaScript value NaN and
not the 1 the claim defines for n at most 1. -/
theorem C7_pairwise_agreement :
    calculatePairwiseAgreements (threeResults.map Prod.snd) = 1
    ∧ (calculateConsensusMetrics [] threeResults).agreementRat = JSNum.fin (1/3)
    ∧ (calculateConsensusMetrics []
        [("a", ⟨"a", true, 1, 0, none, none, "m"⟩)]).agreementRat = JSNum.nan
    ∧ JSNum.nan ≠ JSNum.fin 1 := by
  refine ⟨by decide, ?_, by decide, by decide⟩
  norm_num [calculateConsensusMetrics, calculatePairwiseAgreements,
    threeResults, jsDiv, List.filter]

/-- Weight positivity transfers from the registry to metricWeight
(a name missing from the registry falls back to weight 1). -/
lemma metricWeight_pos (agents : List RegisteredAgent)
    (h : ∀ a ∈ agents, 0 < a.priority) (n : String) :
    0 < metricWeight agents n := by
  unfold metricWeight
  cases hf : agents.find? (fun a => a.name == n) with
  | none => norm_num
  | some a => exact h a (List.mem_of_find?_eq_some hf)

/-- Looking a key up in the weight list built over the same entries
returns the weight function applied at that key. -/
lemma lookup_weight_map (g : String → ℚ) :
    ∀ (l : List (String × AgentResult)) (n : String) (r : AgentResult),
      (n, r) ∈ l → (l.map (fun e => (e.1, g e.1))).lookup n = some (g n) := by
  intro l
  induction l with
  | nil => intro n r h; cases h
  | cons e t ih =>
      intro n r h
      by_cases hb : (n == e.1) = true
      · have he : n = e.1 := by simpa using hb
        simp [List.lookup, hb, he]
      · have ht : (n, r) ∈ t := by
          rcases List.mem_cons.mp h with h1 | h1
          · exact absurd (by simp [← congrArg Prod.fst h1]) hb
          · exact h1
        simp [List.lookup, hb, ih n r ht]

/-- On the entries themselves, the effective weight of
calculateWeightedConfidence coincides with the weight function whenever
that weight is nonzero. -/
lemma effWeight_on_entries (g : String → ℚ) (l : List (String × AgentResult))
    (n : String) (r : AgentResult) (hmem : (n, r) ∈ l) (hnz : g n ≠ 0) :
    effWeight (some (l.map (fun e => (e.1, g e.1)))) n = g n := by
  simp [effWeight, lookup_weight_map g l n r hmem, hnz]

/-- Refinement of the fusion formula: when every weight over the entries
is strictly positive, calculateWeightedConfidence applied to the weight
list built from those entries equals the spec formula. -/
lemma calculateWeightedConfidence_spec (l : List (String × AgentResult))
    (g : String → ℚ) (hw : ∀ e ∈ l, 0 < g e.1) :
    calculateWeightedConfidence l (some (l.map (fun e => (e.1, g e.1))))
      = specWeightedConfidence l g := by
  have heff : ∀ e ∈ l, effWeight (some (l.map (fun e => (e.1, g e.1)))) e.1 = g e.1 := by
    intro e he
    exact effWeight_on_entries g l e.1 e.2 (by simpa using he) (ne_of_gt (hw e he))
  unfold calculateWeightedConfidence specWeightedConfidence
  have h1 : l.map (fun e =>
        (if e.2.detection then e.2.confidence else 0) * (1 - e.2.uncertainty)
          * effWeight (some (l.map (fun e => (e.1, g e.1)))) e.1)
      = l.map (fun e =>
        if e.2.detection then e.2.confidence * (1 - e.2.uncertainty) * g e.1 else 0) := by
    apply List.map_congr_left
    intro e he
    rw [heff e he]
    by_cases hd : e.2.detection <;> simp [hd]
  have h2 : l.map (fun e => effWeight (some (l.map (fun e => (e.1, g e.1)))) e.1)
      = l.map (fun e => g e.1) :=
    List.map_congr_left heff
  rw [h1, h2]
  rcases eq_or_ne l [] with rfl | hne
  · simp
  · have hpos : 0 < (l.map (fun e => g e.1)).sum := by
      apply List.sum_pos
      · intro x hx
        rcases List.mem_map.mp hx with ⟨e, he, rfl⟩
        exact hw e he
      · simpa using hne
    rw [if_pos hpos, if_neg (ne_of_gt hpos)]

/-- Claim C5 (amended): for every evaluation that passes the quality
gate, the veto engine and the pattern matcher, and in which every
registered detector weight is strictly positive, the final confidence
equals the spec formula (detection-gated confidence times one minus
uncertainty times weight, over the total weight of all detectors, 0 when
that total is 0) and detection holds exactly when that confidence reaches
confidenceThreshold.  The positivity proviso is forced: a weight of 0 is
silently replaced by 1 by the JavaScript falsy fallback, as the
counterexample shows. -/
theorem C5_weighted_fusion_amended (cfg : ConsensusConfig)
    (fpdb : List (String × FPPattern)) (agents : List RegisteredAgent)
    (cand : AnomalyCandidate) (data : SatelliteData)
    (hq : (performDataQualityCheck data).pass = true)
    (hv : (applyVetoLogic cfg.vetoEnabled
        (runAgentEvaluations cfg.parallelExecution cfg.maxProcessingTime agents)).vetoed
      = false)
    (hf : (checkFalsePositiveDatabase fpdb cand
        (runAgentEvaluations cfg.parallelExecution cfg.maxProcessingTime agents)).isKnownFP
      = false)
    (hw : ∀ a ∈ agents, 0 < a.priority) :
    (evaluateWithConsensus cfg fpdb agents cand data).confidence
      = specWeightedConfidence
          (runAgentEvaluations cfg.parallelExecution cfg.maxProcessingTime agents)
          (metricWeight agents)
    ∧ (evaluateWithConsensus cfg fpdb agents cand data).detection
      = decide (cfg.confidenceThreshold
          ≤ (evaluateWithConsensus cfg fpdb agents cand data).confidence) := by
  have key : (evaluateWithConsensus cfg fpdb agents cand data).confidence
      = calculateWeightedConfidence
          (runAgentEvaluations cfg.parallelExecution cfg.maxProcessingTime agents)
          (some ((runAgentEvaluations cfg.parallelExecution cfg.maxProcessingTime agents).map
            (fun e => (e.1, metricWeight agents e.1)))) := by
    simp [evaluateWithConsensus, evaluateSteps, hq, hv, hf, calculateConsensusMetrics]
  have hw2 : ∀ e ∈ runAgentEvaluations cfg.parallelExecution cfg.maxProcessingTime agents,
      0 < metricWeight agents e.1 :=
    fun e _ => metricWeight_pos agents hw e.1
  constructor
  · rw [key]
    exact calculateWeightedConfidence_spec _ (metricWeight agents) hw2
  · simp [evaluateWithConsensus, evaluateSteps, hq, hv, hf, calculateConsensusMetrics]

/-- Claim C5 counterexample: with one detecting agent of weight 0
(confidence 1, uncertainty 0) the engine reports confidence 1 and
detection true, while the formula of the claim yields 0 (the total weight
is 0), which is below the default threshold 0.7 — the zero weight was
silently replaced by 1. -/
theorem C5_counterexample :
    (evaluateWithConsensus cfg0 [] zeroWeightAgents cand0 snapEmpty).confidence = 1
    ∧ (evaluateWithConsensus cfg0 [] zeroWeightAgents cand0 snapEmpty).detection = true
    ∧ specWeightedConfidence
        (runAgentEvaluations cfg0.parallelExecution cfg0.maxProcessingTime zeroWeightAgents)
        (metricWeight zeroWeightAgents) = 0
    ∧ (0:ℚ) < 7/10 ∧ cfg0.confidenceThreshold = 7/10 := by
  norm_num [evaluateWithConsensus, evaluateSteps, performDataQualityCheck,
    assessTemporalCoverage, assessCloudCover, assessResolutionCompatibility,
    assessRadiometricConsistency, snapEmpty, min_def, cfg0, mkConsensusConfig,
    runAgentEvaluations, runOne, runAgentWithTimeout, zeroWeightAgents,
    calculateConsensusMetrics, applyVetoLogic, vetoConditions,
    checkVetoCondition, conditionHolds, agentNameHas, hasSubstr, startsWithCh,
    dataShortWavelength, dataCoherenceLow, checkFalsePositiveDatabase,
    extractAnomalyFeatures, calculateWeightedConfidence, effWeight,
    metricWeight, specWeightedConfidence, jsDiv, List.lookup]

/-- Claim C5 witness: a concrete fusion run (one agent, priority 2,
confidence 0.9, uncertainty 0.1) on which the amended claim applies. -/
theorem C5_witness :
    (evaluateWithConsensus cfg0 [] posAgents cand0 snapEmpty).confidence
      = specWeightedConfidence
          (runAgentEvaluations cfg0.parallelExecution cfg0.maxProcessingTime posAgents)
          (metricWeight posAgents)
    ∧ (evaluateWithConsensus cfg0 [] posAgents cand0 snapEmpty).detection
      = decide (cfg0.confidenceThreshold
          ≤ (evaluateWithConsensus cfg0 [] posAgents cand0 snapEmpty).confidence) :=
  C5_weighted_fusion_amended cfg0 [] posAgents cand0 snapEmpty
    (by norm_num [performDataQualityCheck, assessTemporalCoverage, assessCloudCover,
      assessResolutionCompatibility, assessRadiometricConsistency, snapEmpty, min_def])
    (by decide) (by decide) (by decide)

/-- Inserting a fresh key into a JavaScript map appends it. -/
lemma jsMapInsert_not_mem (m : List (String × Bool)) (k : String) (v : Bool)
    (h : ∀ e ∈ m, e.1 ≠ k) : jsMapInsert m k v = m ++ [(k, v)] := by
  have ha : m.any (fun e => e.1 == k) = false := by
    simp only [List.any_eq_false, beq_iff_eq]
    exact h
  simp [jsMapInsert, ha]

/-- Folding map insertion over a key-nodup list whose keys avoid the
accumulator just appends the list. -/
lemma jsMapInsert_foldl (l : List (String × Bool)) :
    ∀ m : List (String × Bool), (l.map Prod.fst).Nodup →
      (∀ e ∈ m, ∀ e2 ∈ l, e.1 ≠ e2.1) →
      l.foldl (fun m e => jsMapInsert m e.1 e.2) m = m ++ l := by
  induction l with
  | nil => intro m _ _; simp
  | cons a t ih =>
      intro m hnd hdis
      simp only [List.foldl_cons]
      have hins : jsMapInsert m a.1 a.2 = m ++ [(a.1, a.2)] :=
        jsMapInsert_not_mem m a.1 a.2
          (fun e he => hdis e he a (List.mem_cons_self a t))
      rw [hins]
      have hhead : a.1 ∉ t.map Prod.fst := by
        have := hnd
        simp only [List.map_cons, List.nodup_cons] at this
        exact this.1
      have hnd2 : (t.map Prod.fst).Nodup := by
        have := hnd
        simp only [List.map_cons, List.nodup_cons] at this
        exact this.2
      have hdis2 : ∀ e ∈ m ++ [(a.1, a.2)], ∀ e2 ∈ t, e.1 ≠ e2.1 := by
        intro e he e2 he2
        rcases List.mem_append.mp he with h1 | h1
        · exact hdis e h1 e2 (List.mem_cons_of_mem a he2)
        · have he3 : e = (a.1, a.2) := by simpa using h1
          subst he3
          intro hcontra
          exact hhead (hcontra ▸ List.mem_map_of_mem Prod.fst he2)
      rw [ih (m ++ [(a.1, a.2)]) hnd2 hdis2]
      simp

/-- new Map over a list with no duplicated keys is that list. -/
lemma jsMapOfList_nodup (l : List (String × Bool))
    (h : (l.map Prod.fst).Nodup) : jsMapOfList l = l := by
  have := jsMapInsert_foldl l [] h (by simp)
  simpa [jsMapOfList] using this

/-- Refinement of the pattern score: over a nonempty, key-nodup detector
map and a key-nodup stored pattern, the match score of the code equals
the finite spec formula. -/
lemma calculatePatternMatch_spec (cand : AnomalyCandidate)
    (entries : List (String × AgentResult)) (pat : FPPattern)
    (hdn : (entries.map Prod.fst).Nodup)
    (hpn : (pat.agentPattern.map Prod.fst).Nodup)
    (hne : entries ≠ []) :
    calculatePatternMatch (extractAnomalyFeatures cand entries) pat
      = JSNum.fin (specPatternScore cand entries pat) := by
  have hd : ((entries.map (fun e => (e.1, e.2.detection))).map Prod.fst).Nodup := by
    simpa [List.map_map, Function.comp] using hdn
  have hlen0 : ((entries.length : ℚ)) ≠ 0 := by
    simpa using (fun h0 => hne (List.length_eq_zero.mp h0))
  unfold calculatePatternMatch extractAnomalyFeatures compareAgentPatterns
  rw [jsMapOfList_nodup _ hd, jsMapOfList_nodup _ hpn]
  have hcount : ((entries.map (fun e => (e.1, e.2.detection))).filter
        (fun e => (pat.agentPattern.lookup e.1) == some e.2)).length
      = entries.countP (fun e => (pat.agentPattern.lookup e.1) == some e.2.detection) := by
    rw [← List.countP_eq_length_filter, List.countP_map]
    rfl
  simp only [hcount, List.length_map]
  rw [jsDiv, if_neg hlen0]
  simp only [jsMul, jsAdd]
  unfold specPatternScore
  apply congrArg JSNum.fin
  simp only [beq_iff_eq]
  ring

/-- Claim C8: in every non-vetoed, quality-passing evaluation over a
nonempty registry (with the map-unique detector names of the source and a
well-formed per-detector pattern), the similarity score of each stored
pattern is 0.3 for a category match plus 0.3 for a context match plus 0.4
times the fraction of detectors matching the expected outputs; and if any
stored pattern scores above 0.7 the result has detection = false and
carries an isKnownFP record with a pattern identity and a match score
above 0.7. -/
theorem C8_fp_pattern_match (cfg : ConsensusConfig)
    (fpdb : List (String × FPPattern)) (agents : List RegisteredAgent)
    (cand : AnomalyCandidate) (data : SatelliteData)
    (hnames : (agents.map RegisteredAgent.name).Nodup)
    (hne : agents ≠ [])
    (hq : (performDataQualityCheck data).pass = true)
    (hv : (applyVetoLogic cfg.vetoEnabled
        (runAgentEvaluations cfg.parallelExecution cfg.maxProcessingTime agents)).vetoed
      = false) :
    (∀ pid pat, (pid, pat) ∈ fpdb → (pat.agentPattern.map Prod.fst).Nodup →
      calculatePatternMatch
          (extractAnomalyFeatures cand
            (runAgentEvaluations cfg.parallelExecution cfg.maxProcessingTime agents)) pat
        = JSNum.fin (specPatternScore cand
            (runAgentEvaluations cfg.parallelExecution cfg.maxProcessingTime agents) pat))
    ∧ ((∃ e ∈ fpdb, jsGt (calculatePatternMatch
          (extractAnomalyFeatures cand
            (runAgentEvaluations cfg.parallelExecution cfg.maxProcessingTime agents)) e.2)
          (JSNum.fin (7/10)) = true) →
        (evaluateWithConsensus cfg fpdb agents cand data).detection = false
        ∧ ∃ d, (evaluateWithConsensus cfg fpdb agents cand data).falsePositiveCheck
              = some { isKnownFP := true, matchDetails := some d }
            ∧ jsGt d.matchScore (JSNum.fin (7/10)) = true) := by
  have hLn : ((runAgentEvaluations cfg.parallelExecution cfg.maxProcessingTime agents).map
      Prod.fst).Nodup := by
    rw [runAgentEvaluations_names]; exact hnames
  have hLne : runAgentEvaluations cfg.parallelExecution cfg.maxProcessingTime agents ≠ [] := by
    rw [runAgentEvaluations_eq]
    simpa using hne
  constructor
  · intro pid pat hmem hpn
    exact calculatePatternMatch_spec cand _ pat hLn hpn hLne
  · intro hex
    rcases hex with ⟨e0, he0, hgt⟩
    have hsome : ∃ e1, (fpdb.find? (fun e => jsGt (calculatePatternMatch
        (extractAnomalyFeatures cand
          (runAgentEvaluations cfg.parallelExecution cfg.maxProcessingTime agents)) e.2)
        (JSNum.fin (7/10)))) = some e1 := by
      cases hf2 : fpdb.find? (fun e => jsGt (calculatePatternMatch
          (extractAnomalyFeatures cand
            (runAgentEvaluations cfg.parallelExecution cfg.maxProcessingTime agents)) e.2)
          (JSNum.fin (7/10))) with
      | none =>
          have := List.find?_eq_none.mp hf2 e0 he0
          exact absurd hgt (by simpa using this)
      | some e1 => exact ⟨e1, rfl⟩
    rcases hsome with ⟨e1, hf1⟩
    have hp1 := List.find?_some hf1
    have hcheck : checkFalsePositiveDatabase fpdb cand
        (runAgentEvaluations cfg.parallelExecution cfg.maxProcessingTime agents)
        = { isKnownFP := true
            matchDetails := some
              { patternId := e1.1
                matchScore := calculatePatternMatch
                  (extractAnomalyFeatures cand
                    (runAgentEvaluations cfg.parallelExecution cfg.maxProcessingTime agents))
                  e1.2 } } := by
      simp [checkFalsePositiveDatabase, hf1]
    refine ⟨?_, ⟨e1.1, calculatePatternMatch
        (extractAnomalyFeatures cand
          (runAgentEvaluations cfg.parallelExecution cfg.maxProcessingTime agents)) e1.2⟩,
      ?_, ?_⟩
    · simp [evaluateWithConsensus, evaluateSteps, hq, hv, hcheck]
    · simp [evaluateWithConsensus, evaluateSteps, hq, hv, hcheck]
    · simpa using hp1

/-- Claim C8 witness: a concrete run with one detecting agent and a
stored pattern scoring 1 (above 0.7), in which detection is
suppressed. -/
theorem C8_witness :
    (evaluateWithConsensus cfg0 [("p1", pat0)] fpAgents cand0 snapEmpty).detection
      = false := by
  have h := (C8_fp_pattern_match cfg0 [("p1", pat0)] fpAgents cand0 snapEmpty
    (by decide) (by decide)
    (by norm_num [performDataQualityCheck, assessTemporalCoverage, assessCloudCover,
      assessResolutionCompatibility, assessRadiometricConsistency, snapEmpty, min_def])
    (by decide)).2
  refine (h ⟨("p1", pat0), by simp, ?_⟩).1
  norm_num [calculatePatternMatch, extractAnomalyFeatures, compareAgentPatterns,
    jsMapOfList, jsMapInsert, jsDiv, jsMul, jsAdd, jsGt, pat0, fpAgents, cand0,
    runAgentEvaluations, runOne, runAgentWithTimeout, cfg0, mkConsensusConfig,
    List.lookup]

/-- A registry with one agent that reports no detection. -/
def noDetectAgents : List RegisteredAgent :=
  [⟨"a", 1, ⟨0, some ⟨"a", false, 0, 1, none, none, "m"⟩⟩⟩]

/-- A thoroughly malformed configuration: consensusThreshold 3 (above 1),
confidenceThreshold -1 (below 0), maxProcessingTime 0. -/
def badCfg : ConsensusConfig :=
  mkConsensusConfig ⟨some 3, none, some (-1), some 0, none⟩

/-- Claim C9 counterexample: construction accepts the malformed
configuration unchanged (no error is raised anywhere), and the resulting
engine happily runs an evaluation — with confidenceThreshold -1 it even
reports detection = true although its only detector found nothing. -/
theorem C9_counterexample :
    badCfg.consensusThreshold = 3
    ∧ badCfg.confidenceThreshold = -1
    ∧ (1:ℚ) < badCfg.consensusThreshold
    ∧ badCfg.confidenceThreshold < 0
    ∧ (evaluateWithConsensus badCfg [] noDetectAgents cand0 snapEmpty).detection = true := by
  norm_num [evaluateWithConsensus, evaluateSteps, performDataQualityCheck,
    assessTemporalCoverage, assessCloudCover, assessResolutionCompatibility,
    assessRadiometricConsistency, snapEmpty, min_def, badCfg, mkConsensusConfig,
    runAgentEvaluations, runOne, runAgentWithTimeout, noDetectAgents, cand0,
    calculateConsensusMetrics, applyVetoLogic, vetoConditions,
    checkVetoCondition, conditionHolds, agentNameHas, hasSubstr, startsWithCh,
    dataShortWavelength, dataCoherenceLow, checkFalsePositiveDatabase,
    extractAnomalyFeatures, calculateWeightedConfidence, effWeight,
    metricWeight, jsDiv, List.lookup]

/-- Claim C9 (amended): engine construction performs no validation and
never raises: the supplied Partial configuration is merged over the
defaults as-is, so any confidenceThreshold — inside or outside its
documented range — is stored and consulted directly by the final decision
of an evaluation. -/
theorem C9_no_construction_validation (q : ℚ)
    (fpdb : List (String × FPPattern)) (agents : List RegisteredAgent)
    (cand : AnomalyCandidate) (data : SatelliteData)
    (hq : (performDataQualityCheck data).pass = true)
    (hv : (applyVetoLogic true (runAgentEvaluations true 300000 agents)).vetoed = false)
    (hf : (checkFalsePositiveDatabase fpdb cand
        (runAgentEvaluations true 300000 agents)).isKnownFP = false) :
    (mkConsensusConfig ⟨none, none, some q, none, none⟩).confidenceThreshold = q
    ∧ (evaluateWithConsensus (mkConsensusConfig ⟨none, none, some q, none, none⟩)
          fpdb agents cand data).detection
      = decide (q ≤ (evaluateWithConsensus (mkConsensusConfig ⟨none, none, some q, none, none⟩)
          fpdb agents cand data).confidence) := by
  constructor
  · rfl
  · simp [evaluateWithConsensus, evaluateSteps, mkConsensusConfig, hq, hv, hf]

/-- Claim C9 witness: the amended claim applied at the out-of-range
threshold 5. -/
theorem C9_witness :
    (mkConsensusConfig ⟨none, none, some 5, none, none⟩).confidenceThreshold = 5
    ∧ (evaluateWithConsensus (mkConsensusConfig ⟨none, none, some 5, none, none⟩)
          [] posAgents cand0 snapEmpty).detection
      = decide ((5:ℚ) ≤ (evaluateWithConsensus (mkConsensusConfig ⟨none, none, some 5, none, none⟩)
          [] posAgents cand0 snapEmpty).confidence) :=
  C9_no_construction_validation 5 [] posAgents cand0 snapEmpty
    (by norm_num [performDataQualityCheck, assessTemporalCoverage, assessCloudCover,
      assessResolutionCompatibility, assessRadiometricConsistency, snapEmpty, min_def])
    (by decide) (by decide)

/-- Claim C10 counterexample: a vetoed evaluation produces an
EvaluationResult carrying a vetoed vetoStatus, yet the history stays
empty — vetoed (and likewise quality-failed and FP-matched) results are
never appended, contradicting the claim that every produced result is. -/
theorem C10_counterexample :
    (evaluateWithConsensus cfg0 [] vetoAgents cand0 snapEmpty).vetoStatus
      = some ⟨true, some "PhysicsValidationAgent",
          some "Anomaly violates physics constraints for this geological province"⟩
    ∧ (evalAndLog cfg0 [] vetoAgents cand0 snapEmpty []).2 = [] := by
  norm_num [evaluateWithConsensus, evalAndLog, evaluateSteps, performDataQualityCheck,
    assessTemporalCoverage, assessCloudCover, assessResolutionCompatibility,
    assessRadiometricConsistency, snapEmpty, min_def, cfg0, mkConsensusConfig,
    runAgentEvaluations, runOne, runAgentWithTimeout, vetoAgents,
    applyVetoLogic, vetoConditions, checkVetoCondition, conditionHolds,
    agentNameHas, hasSubstr, startsWithCh, dataShortWavelength, dataCoherenceLow]

/-- Claim C10 (amended): an EvaluationResult is appended to the history
exactly when it comes from the final fusion path (quality passed, not
vetoed, not FP-matched); the aggregate statistics are computed over that
list, so over any history of such results — none of which carries a veto
record — the reported veto rate is 0, not the fraction of evaluations
that were vetoed. -/
theorem C10_history_append_fusion_only (cfg : ConsensusConfig)
    (fpdb : List (String × FPPattern)) (agents : List RegisteredAgent)
    (cand : AnomalyCandidate) (data : SatelliteData)
    (hist : List ConsensusResult) :
    ((evalAndLog cfg fpdb agents cand data hist).1
        = evaluateWithConsensus cfg fpdb agents cand data)
    ∧ ((evalAndLog cfg fpdb agents cand data hist).2
        = if isFusionResult (evaluateWithConsensus cfg fpdb agents cand data)
          then hist ++ [evaluateWithConsensus cfg fpdb agents cand data] else hist)
    ∧ (∀ h2 : List ConsensusResult, ∀ s : ConsensusStats,
        (∀ r ∈ h2, r.vetoStatus = none) →
        getConsensusStatistics h2 = some s → s.vetoRate = 0) := by
  refine ⟨rfl, ?_, ?_⟩
  · by_cases hq : (performDataQualityCheck data).pass = true
    · by_cases hv : (applyVetoLogic cfg.vetoEnabled
          (runAgentEvaluations cfg.parallelExecution cfg.maxProcessingTime agents)).vetoed = true
      · simp [evalAndLog, evaluateWithConsensus, evaluateSteps, isFusionResult, hq, hv]
      · rw [Bool.not_eq_true] at hv
        by_cases hf : (checkFalsePositiveDatabase fpdb cand
            (runAgentEvaluations cfg.parallelExecution cfg.maxProcessingTime agents)).isKnownFP = true
        · simp [evalAndLog, evaluateWithConsensus, evaluateSteps, isFusionResult, hq, hv, hf]
        · rw [Bool.not_eq_true] at hf
          simp [evalAndLog, evaluateWithConsensus, evaluateSteps, isFusionResult, hq, hv, hf]
    · rw [Bool.not_eq_true] at hq
      simp [evalAndLog, evaluateWithConsensus, evaluateSteps, isFusionResult, hq]
  · intro h2 s hnone hstat
    by_cases hl : h2.length = 0
    · simp [getConsensusStatistics, hl] at hstat
    · have hfil : (h2.filter (fun r =>
          (r.vetoStatus.map (fun v => v.vetoed)).getD false)) = [] := by
        rw [List.filter_eq_nil_iff]
        intro r hr
        simp [hnone r hr]
      simp [getConsensusStatistics, hl, hfil] at hstat
      rw [← hstat]

/-- Claim C10 witness: a concrete fusion run is appended to the empty
history, and the statistics over the resulting one-element history report
a veto rate of 0. -/
theorem C10_witness :
    ((evalAndLog cfg0 [] posAgents cand0 snapEmpty []).2
        = if isFusionResult (evaluateWithConsensus cfg0 [] posAgents cand0 snapEmpty)
          then [] ++ [evaluateWithConsensus cfg0 [] posAgents cand0 snapEmpty] else [])
    ∧ ∀ s : ConsensusStats,
        getConsensusStatistics [evaluateWithConsensus cfg0 [] posAgents cand0 snapEmpty]
          = some s → s.vetoRate = 0 := by
  have h := C10_history_append_fusion_only cfg0 [] posAgents cand0 snapEmpty []
  refine ⟨h.2.1, fun s hs => h.2.2 _ s ?_ hs⟩
  intro r hr
  rw [List.mem_singleton.mp hr]
  norm_num [evaluateWithConsensus, evaluateSteps, performDataQualityCheck,
    assessTemporalCoverage, assessCloudCover, assessResolutionCompatibility,
    assessRadiometricConsistency, snapEmpty, min_def, cfg0, mkConsensusConfig,
    runAgentEvaluations, runOne, runAgentWithTimeout, posAgents,
    applyVetoLogic, vetoConditions, checkVetoCondition, conditionHolds,
    agentNameHas, hasSubstr, startsWithCh, dataShortWavelength, dataCoherenceLow,
    checkFalsePositiveDatabase, extractAnomalyFeatures]

end Aurora
